import Mathlib

set_option linter.all false

/-!
Shallow embedding of the arjun and gospider tool wrappers
(src/tools/arjun.py and src/tools/gospider.py) and proofs about them.

Subprocess execution is external to the code: it is modelled by an
`ExecOutcome` input (launch failure, or completion with exit status and
captured streams).  `json.loads` is likewise external: each captured
stdout line carries the decode outcome `json.loads` would have on it.
Python exceptions that escape a function are modelled with `Except`.
-/

namespace SecOps

/-- Python whitespace class used by str.strip(). -/
def isPySpace (c : Char) : Bool :=
  c == ' ' || c == '\t' || c == '\n' || c == '\r' || c == '\x0b' || c == '\x0c'

def dropSpaces : List Char → List Char
  | [] => []
  | c :: cs => if isPySpace c then dropSpaces cs else c :: cs

/-- Python line.strip(). -/
def pyStrip (s : String) : String :=
  ⟨(dropSpaces ((dropSpaces s.data).reverse)).reverse⟩

def charsStartWith : List Char → List Char → Bool
  | _, [] => true
  | [], _ :: _ => false
  | c :: cs, d :: ds => c == d && charsStartWith cs ds

/-- Python s.startswith(t). -/
def pyStartsWith (s t : String) : Bool := charsStartWith s.data t.data

/-- Python s.endswith(t). -/
def pyEndsWith (s t : String) : Bool := charsStartWith s.data.reverse t.data.reverse

/-- Python s.upper(). -/
def pyUpper (s : String) : String := ⟨s.data.map Char.toUpper⟩

def listContainsSub (needle : List Char) : List Char → Bool
  | [] => charsStartWith [] needle
  | c :: cs => charsStartWith (c :: cs) needle || listContainsSub needle cs

/-- Python needle in hay, for strings (substring test). -/
def strContainsSub (hay needle : String) : Bool := listContainsSub needle.data hay.data

/-- A decoded JSON value, as produced by json.loads. -/
inductive JVal where
  | str (s : String)
  | num (n : Int)
  | boolean (b : Bool)
  | null
  | arr (elems : List JVal)
  | obj (fields : List (String × JVal))

/-- Python v == s for a string literal s: true only for an equal str. -/
def jvalIsStr (v : JVal) (s : String) : Bool :=
  match v with
  | .str t => t == s
  | _ => false

def optIsStr (v : Option JVal) (s : String) : Bool :=
  match v with
  | some w => jvalIsStr w s
  | none => false

/-- Python data.get(k) on a dict; JSON null is normalised to Python None. -/
def jGet (fs : List (String × JVal)) (k : String) : Option JVal :=
  match fs.lookup k with
  | some .null => none
  | some v => some v
  | none => none

/-- One captured stdout line, together with the outcome json.loads would
    have on it (`none` models a json.JSONDecodeError). -/
structure RawLine where
  raw : String
  decoded : Option JVal

/-- Outcome of subprocess.run: either the process could not be launched
    (OSError with errno and strerror), or it completed with an exit status,
    captured stdout (as lines, Python splitlines) and captured stderr. -/
inductive ExecOutcome where
  | launchFailure (errnoCode : Int) (strerror : String)
  | completed (returncode : Int) (stdoutLines : List RawLine) (stderr : String)

/-- Python str(OSError(errno, strerror)). -/
def oserrorStr (errnoCode : Int) (strerror : String) : String :=
  "[Errno " ++ toString errnoCode ++ "] " ++ strerror

/-- Python str(subprocess.CalledProcessError(returncode, cmd)). -/
def cpeStr (cmd : List String) (returncode : Int) : String :=
  "Command " ++ toString cmd ++
    (if returncode < 0 then " died with signal " ++ toString (-returncode)
     else " returned non-zero exit status " ++ toString returncode) ++ "."

def optStrTruthy : Option String → Bool
  | none => false
  | some s => !(s == "")

def optListTruthy {α : Type} : Option (List α) → Bool
  | none => false
  | some l => !l.isEmpty

/-! ## arjun.py -/

structure ArjunArgs where
  url : String
  method : String := "GET"
  wordlist : Option String := none
  headers : Option (List String) := none
  data : Option String := none
  delay : Int := 0
  timeout : Int := 10
  threads : Int := 25
  stable : Bool := false
  output_format : String := "json"

/-- The command token list built by arjun_wrapper (lines 37-67). -/
def arjunCmd (a : ArjunArgs) : List String :=
  ["arjun", "-u", a.url] ++ ["-m", pyUpper a.method]
  ++ (if optStrTruthy a.wordlist then ["-w", a.wordlist.getD ""] else [])
  ++ (if optListTruthy a.headers then ((a.headers.getD []).map (fun h => ["-H", h])).join else [])
  ++ (if optStrTruthy a.data then ["-d", a.data.getD ""] else [])
  ++ (if 0 < a.delay then ["--delay", toString a.delay] else [])
  ++ ["-t", toString a.timeout] ++ ["--threads", toString a.threads]
  ++ (if a.stable then ["--stable"] else [])
  ++ (if a.output_format == "json" then ["-oJ", "-"] else ["-oT", "-"])

/-- Python "parameters" in data; raises TypeError on a non-iterable value. -/
def pyContainsParams : JVal → Except String Bool
  | .obj fs => .ok (fs.lookup "parameters").isSome
  | .arr xs => .ok (xs.any (fun v => jvalIsStr v "parameters"))
  | .str s => .ok (strContainsSub s "parameters")
  | .num _ => .error "argument of type int is not iterable"
  | .boolean _ => .error "argument of type bool is not iterable"
  | .null => .error "argument of type NoneType is not iterable"

/-- Python data["parameters"]; raises TypeError unless data is a dict. -/
def pyIndexParams : JVal → Except String JVal
  | .obj fs =>
    match fs.lookup "parameters" with
    | some v => .ok v
    | none => .error "KeyError: parameters"
  | .arr _ => .error "list indices must be integers or slices, not str"
  | .str _ => .error "string indices must be integers"
  | .num _ => .error "int object is not subscriptable"
  | .boolean _ => .error "bool object is not subscriptable"
  | .null => .error "NoneType object is not subscriptable"

/-- Python parameters.extend(v); iterates v, TypeError if not iterable
    (a str iterates its characters, a dict its keys). -/
def pyExtend (acc : List JVal) : JVal → Except String (List JVal)
  | .arr xs => .ok (acc ++ xs)
  | .str s => .ok (acc ++ s.data.map (fun c => JVal.str ⟨[c]⟩))
  | .obj fs => .ok (acc ++ fs.map (fun p => JVal.str p.1))
  | .num _ => .error "int object is not iterable"
  | .boolean _ => .error "bool object is not iterable"
  | .null => .error "NoneType object is not iterable"

inductive ArjunLoopOut where
  | ok (params : List JVal)
  | decodeFailed (params : List JVal)
  | typeErr (msg : String)

/-- The structured-output loop of arjun_wrapper (lines 83-91).  The whole
    loop sits inside one try whose handler catches only JSONDecodeError;
    a decode failure aborts the loop keeping the parameters accumulated so
    far (decodeFailed), any other exception propagates (typeErr). -/
def arjunJsonLoop : List RawLine → List JVal → ArjunLoopOut
  | [], acc => .ok acc
  | l :: ls, acc =>
    if pyStrip l.raw == "" then arjunJsonLoop ls acc
    else
      match l.decoded with
      | none => .decodeFailed acc
      | some d =>
        match pyContainsParams d with
        | .error m => .typeErr m
        | .ok true =>
          match pyIndexParams d with
          | .error m => .typeErr m
          | .ok v =>
            match pyExtend acc v with
            | .error m => .typeErr m
            | .ok acc2 => arjunJsonLoop ls acc2
        | .ok false =>
          match d with
          | .arr xs => arjunJsonLoop ls (acc ++ xs)
          | .str s => arjunJsonLoop ls (acc ++ [JVal.str s])
          | _ => arjunJsonLoop ls acc

/-- The plain-text parse of arjun_wrapper (lines 94-96 and 99-101). -/
def arjunTextParse (lines : List RawLine) : List JVal :=
  lines.filterMap (fun l =>
    if !(pyStrip l.raw == "") && !(pyStartsWith l.raw "[") then
      some (JVal.str (pyStrip l.raw))
    else none)

/-- Output parsing of arjun_wrapper (lines 78-101): in json mode the
    structured loop, falling back to a text parse of the whole stdout on
    the first JSONDecodeError; otherwise the text parse directly. -/
def arjunParseParams (output_format : String) (lines : List RawLine) :
    Except String (List JVal) :=
  if output_format == "json" then
    match arjunJsonLoop lines [] with
    | .ok ps => .ok ps
    | .decodeFailed ps => .ok (ps ++ arjunTextParse lines)
    | .typeErr m => .error m
  else .ok (arjunTextParse lines)

/-- The result dictionary of arjun_wrapper; `none` models an absent key. -/
structure ArjunResult where
  success : Bool
  target : Option String := none
  method : Option String := none
  parameters : Option (List JVal) := none
  count : Option Nat := none
  error : Option String := none
  stderr : Option String := none
  custom_parameters_tested : Option (List String) := none
  custom_parameters_found : Option (List String) := none
  custom_match_count : Option Nat := none

/-- arjun_wrapper (lines 5-121). -/
def arjun_wrapper (a : ArjunArgs) (ex : ExecOutcome) : ArjunResult :=
  match ex with
  | .launchFailure e s => { success := false, error := some (oserrorStr e s) }
  | .completed rc lines stderrText =>
    if rc == 0 then
      match arjunParseParams a.output_format lines with
      | .ok ps =>
        { success := true, target := some a.url, method := some (pyUpper a.method),
          parameters := some ps, count := some ps.length }
      | .error m => { success := false, error := some m }
    else
      { success := false, error := some (cpeStr (arjunCmd a) rc),
        stderr := some (if stderrText == "" then "Command execution failed" else stderrText) }

/-- A per-target entry of arjun_bulk_scan's results dict (lines 157-167). -/
structure BulkEntry where
  parameters : List JVal
  count : Nat
  error : Option String

def bulkEntryOf (r : ArjunResult) : BulkEntry :=
  if r.success then { parameters := r.parameters.getD [], count := r.count.getD 0, error := none }
  else { parameters := [], count := 0, error := some (r.error.getD "") }

def keysOf (d : List (String × BulkEntry)) : List String := d.map Prod.fst

/-- Python dict assignment d[k] = v: overwrite in place, else append. -/
def dictInsert (d : List (String × BulkEntry)) (k : String) (v : BulkEntry) :
    List (String × BulkEntry) :=
  if (keysOf d).contains k then d.map (fun p => if p.1 == k then (k, v) else p)
  else d ++ [(k, v)]

/-- The scan loop of arjun_bulk_scan (lines 147-168); `scan i u` is the
    envelope of the i-th arjun_wrapper call, on target u. -/
def bulkGo (scan : Nat → String → ArjunResult) :
    List String → Nat → List (String × BulkEntry) → Nat → Nat →
    List (String × BulkEntry) × Nat × Nat
  | [], _, acc, s, f => (acc, s, f)
  | u :: us, i, acc, s, f =>
    let r := scan i u
    if r.success then bulkGo scan us (i + 1) (dictInsert acc u (bulkEntryOf r)) (s + 1) f
    else bulkGo scan us (i + 1) (dictInsert acc u (bulkEntryOf r)) s (f + 1)

structure BulkResult where
  success : Bool
  method : String
  total_urls : Nat
  successful_scans : Nat
  failed_scans : Nat
  results : List (String × BulkEntry)

/-- The argument set arjun_bulk_scan passes to arjun_wrapper per target. -/
def bulkArgs (method : String) (wordlist : Option String) (threads : Int) (stable : Bool)
    (url : String) : ArjunArgs :=
  { url := url, method := method, wordlist := wordlist, threads := threads, stable := stable }

/-- arjun_bulk_scan (lines 123-177); execs gives the outcome of the i-th
    subprocess execution. -/
def arjun_bulk_scan (urls : List String) (method : String) (wordlist : Option String)
    (threads : Int) (stable : Bool) (execs : Nat → ExecOutcome) : BulkResult :=
  let out := bulkGo (fun i u => arjun_wrapper (bulkArgs method wordlist threads stable u) (execs i))
    urls 0 [] 0 0
  { success := true, method := pyUpper method, total_urls := urls.length,
    successful_scans := out.2.1, failed_scans := out.2.2, results := out.1 }

/-- arjun_with_custom_payloads (lines 179-217). -/
def arjun_with_custom_payloads (a : ArjunArgs) (custom_params : Option (List String))
    (ex : ExecOutcome) : ArjunResult :=
  let results := arjun_wrapper a ex
  if results.success then
    if optListTruthy custom_params then
      let ps := custom_params.getD []
      let found := ps.filter (fun p => (results.parameters.getD []).any (fun v => jvalIsStr v p))
      { results with custom_parameters_tested := some ps,
                     custom_parameters_found := some found,
                     custom_match_count := some found.length }
    else results
  else results

/-! ## gospider.py -/

structure GospiderArgs where
  target : String
  depth : Int := 3
  concurrent : Int := 10
  timeout : Int := 10
  user_agent : Option String := none
  headers : Option (List String) := none
  include_subs : Bool := false
  include_other_source : Bool := false
  output_format : String := "json"

/-- The command token list built by gospider_wrapper (lines 35-56). -/
def gospiderCmd (g : GospiderArgs) : List String :=
  ["gospider", "-s", g.target] ++ ["-d", toString g.depth] ++ ["-c", toString g.concurrent]
  ++ ["-t", toString g.timeout]
  ++ (if optStrTruthy g.user_agent then ["-u", g.user_agent.getD ""] else [])
  ++ (if optListTruthy g.headers then ((g.headers.getD []).map (fun h => ["-H", h])).join else [])
  ++ (if g.include_subs then ["--subs"] else [])
  ++ (if g.include_other_source then ["--other-source"] else [])
  ++ (if g.output_format == "json" then ["--json"] else [])

structure UrlFinding where
  url : Option JVal
  source : Option JVal
  tag : Option JVal
  status : Option JVal

structure FormFinding where
  url : Option JVal
  source : Option JVal
  tag : Option JVal

structure SecretFinding where
  secret : Option JVal
  source : Option JVal
  tag : Option JVal

structure GospiderFindings where
  urls : List UrlFinding
  forms : List FormFinding
  secrets : List SecretFinding

/-- One decoded record dispatched on its type discriminator (lines 77-95). -/
def gospiderStep (fs : List (String × JVal)) (acc : GospiderFindings) : GospiderFindings :=
  if optIsStr (jGet fs "type") "url" then
    { acc with urls := acc.urls ++
        [⟨jGet fs "output", jGet fs "source", jGet fs "tag", jGet fs "status_code"⟩] }
  else if optIsStr (jGet fs "type") "form" then
    { acc with forms := acc.forms ++ [⟨jGet fs "output", jGet fs "source", jGet fs "tag"⟩] }
  else if optIsStr (jGet fs "type") "secret" then
    { acc with secrets := acc.secrets ++ [⟨jGet fs "output", jGet fs "source", jGet fs "tag"⟩] }
  else acc

/-- Python str(AttributeError) for v.get(...) on a non-dict value. -/
def attrGetMsg : JVal → String
  | .str _ => "str object has no attribute get"
  | .num _ => "int object has no attribute get"
  | .boolean _ => "bool object has no attribute get"
  | .null => "NoneType object has no attribute get"
  | .arr _ => "list object has no attribute get"
  | .obj _ => "dict object has no attribute get"

/-- The structured-output loop of gospider_wrapper (lines 72-98).  The
    per-line try catches only JSONDecodeError, so a decodable non-dict
    line raises AttributeError past the loop. -/
def gospiderJsonLoop : List RawLine → GospiderFindings → Except String GospiderFindings
  | [], acc => .ok acc
  | l :: ls, acc =>
    if pyStrip l.raw == "" then gospiderJsonLoop ls acc
    else
      match l.decoded with
      | none => gospiderJsonLoop ls acc
      | some (.obj fs) => gospiderJsonLoop ls (gospiderStep fs acc)
      | some d => .error (attrGetMsg d)

/-- The plain-text parse of gospider_wrapper (lines 101-108). -/
def gospiderTextParse (lines : List RawLine) : List UrlFinding :=
  lines.filterMap (fun l =>
    if !(pyStrip l.raw == "") && pyStartsWith l.raw "http" then
      some ⟨some (.str (pyStrip l.raw)), some (.str "crawl"), some (.str "url"), none⟩
    else none)

structure GospiderStats where
  total_urls : Nat
  total_forms : Nat
  total_secrets : Nat

/-- The result dictionary of gospider_wrapper; `none` models an absent key. -/
structure GospiderResult where
  success : Bool
  target : Option String := none
  urls : Option (List UrlFinding) := none
  forms : Option (List FormFinding) := none
  secrets : Option (List SecretFinding) := none
  stats : Option GospiderStats := none
  error : Option String := none
  stderr : Option String := none
  filtered : Option Bool := none

/-- gospider_wrapper (lines 5-133). -/
def gospider_wrapper (g : GospiderArgs) (ex : ExecOutcome) : GospiderResult :=
  match ex with
  | .launchFailure e s => { success := false, error := some (oserrorStr e s) }
  | .completed rc lines stderrText =>
    if rc == 0 then
      if g.output_format == "json" then
        match gospiderJsonLoop lines ⟨[], [], []⟩ with
        | .ok fnd =>
          { success := true, target := some g.target, urls := some fnd.urls,
            forms := some fnd.forms, secrets := some fnd.secrets,
            stats := some ⟨fnd.urls.length, fnd.forms.length, fnd.secrets.length⟩ }
        | .error m => { success := false, error := some m }
      else
        let us := gospiderTextParse lines
        { success := true, target := some g.target, urls := some us, forms := some [],
          secrets := some [], stats := some ⟨us.length, 0, 0⟩ }
    else
      { success := false, error := some (cpeStr (gospiderCmd g) rc),
        stderr := some (if stderrText == "" then "Command execution failed" else stderrText) }

structure FilterArgs where
  extensions : Option (List String) := none
  exclude_extensions : Option (List String) := none
  filter_length : Option Int := none

/-- Python url["url"].endswith("." + ext); AttributeError unless a str. -/
def urlEndsWithDot (v : Option JVal) (ext : String) : Except String Bool :=
  match v with
  | some (.str s) => .ok (pyEndsWith s ("." ++ ext))
  | some (.num _) => .error "int object has no attribute endswith"
  | some (.boolean _) => .error "bool object has no attribute endswith"
  | some (.arr _) => .error "list object has no attribute endswith"
  | some (.obj _) => .error "dict object has no attribute endswith"
  | some .null => .error "NoneType object has no attribute endswith"
  | none => .error "NoneType object has no attribute endswith"

/-- Python any(url.endswith(...) for ext in exts): short-circuit. -/
def anyEndsWith (v : Option JVal) : List String → Except String Bool
  | [] => .ok false
  | e :: es =>
    match urlEndsWithDot v e with
    | .error m => .error m
    | .ok true => .ok true
    | .ok false => anyEndsWith v es

/-- A Python list comprehension filter whose predicate may raise. -/
def filterUrls (keep : UrlFinding → Except String Bool) :
    List UrlFinding → Except String (List UrlFinding)
  | [] => .ok []
  | u :: us =>
    match keep u with
    | .error m => .error m
    | .ok b =>
      match filterUrls keep us with
      | .error m => .error m
      | .ok rest => .ok (if b then u :: rest else rest)

/-- The two sequential reassignments of filtered_urls (lines 162-174):
    the extension include filter, then the extension exclude filter.
    filter_length, though accepted by the function, appears nowhere in
    them, exactly as in the source body. -/
def applyFilters (f : FilterArgs) (urls0 : List UrlFinding) :
    Except String (List UrlFinding) :=
  match (if optListTruthy f.extensions then
           filterUrls (fun u => anyEndsWith u.url (f.extensions.getD [])) urls0
         else .ok urls0) with
  | .error m => .error m
  | .ok urls1 =>
    if optListTruthy f.exclude_extensions then
      filterUrls (fun u =>
        match anyEndsWith u.url (f.exclude_extensions.getD []) with
        | .error m => .error m
        | .ok b => .ok (!b)) urls1
    else .ok urls1

/-- gospider_crawl_with_filter (lines 135-181).  The whole function has
    no exception handler, so a predicate exception escapes to the
    caller (the .error case). -/
def gospider_crawl_with_filter (g : GospiderArgs) (f : FilterArgs) (ex : ExecOutcome) :
    Except String GospiderResult :=
  let results := gospider_wrapper g ex
  if results.success then
    match applyFilters f (results.urls.getD []) with
    | .error m => .error m
    | .ok urls2 =>
      .ok { results with
              urls := some urls2,
              stats := some { (results.stats.getD ⟨0, 0, 0⟩) with total_urls := urls2.length },
              filtered := some true }
  else .ok results

/-- The association list arjun_bulk_scan's loop appends when all targets
    are fresh keys: one entry per target, in input order, the i-th built
    from the i-th arjun_wrapper envelope. -/
def bulkEnum (scan : Nat → String → ArjunResult) : Nat → List String → List (String × BulkEntry)
  | _, [] => []
  | i, u :: us => (u, bulkEntryOf (scan i u)) :: bulkEnum scan (i + 1) us

/-- A concrete execution history: the first subprocess exits non-zero,
    every later one succeeds with empty output. -/
def mixedExecs : Nat → ExecOutcome :=
  fun i => if i == 0 then .completed 1 [] "boom" else .completed 0 [] ""

/-- A concrete execution: one crawl line discovering the url /b.php. -/
def phpCrawlExec : ExecOutcome :=
  .completed 0
    [⟨"\x7b\"type\": \"url\", \"output\": \"/b.php\"\x7d",
       some (.obj [("type", .str "url"), ("output", .str "/b.php")])⟩] ""

/-- The envelope gospider_crawl_with_filter returns on phpCrawlExec with
    the extension filter ["php"]. -/
def phpFilteredResult : GospiderResult :=
  { success := true, target := some "http://t",
    urls := some [⟨some (.str "/b.php"), none, none, none⟩],
    forms := some [], secrets := some [], stats := some ⟨1, 0, 0⟩,
    filtered := some true }

/-! ## Helper lemmas -/

theorem data_append (a b : String) : (a ++ b).data = a.data ++ b.data := rfl

theorem append_ne_empty_left (a b : String) (h : a ≠ "") : a ++ b ≠ "" := by
  intro he
  apply h
  have hd := congrArg String.data he
  rw [data_append] at hd
  rcases List.append_eq_nil.mp hd with ⟨h1, _⟩
  exact String.ext (h1.trans rfl)

theorem oserrorStr_ne (e : Int) (s : String) : oserrorStr e s ≠ "" := by
  unfold oserrorStr
  exact append_ne_empty_left _ _ (append_ne_empty_left _ _ (append_ne_empty_left _ _ (by decide)))

theorem cpeStr_ne (cmd : List String) (rc : Int) : cpeStr cmd rc ≠ "" := by
  unfold cpeStr
  exact append_ne_empty_left _ _ (append_ne_empty_left _ _ (append_ne_empty_left _ _ (by decide)))

theorem pyContainsParams_error_ne (d : JVal) (m : String)
    (h : pyContainsParams d = .error m) : m ≠ "" := by
  cases d <;> simp [pyContainsParams] at h <;> (subst h; decide)

theorem pyIndexParams_error_ne (d : JVal) (m : String)
    (h : pyIndexParams d = .error m) : m ≠ "" := by
  cases d with
  | obj fs =>
    rw [pyIndexParams] at h
    cases hl : fs.lookup "parameters" with
    | none => simp only [hl] at h; simp at h; subst h; decide
    | some v => simp only [hl] at h; simp at h
  | str s => simp [pyIndexParams] at h; subst h; decide
  | num n => simp [pyIndexParams] at h; subst h; decide
  | boolean b => simp [pyIndexParams] at h; subst h; decide
  | null => simp [pyIndexParams] at h; subst h; decide
  | arr xs => simp [pyIndexParams] at h; subst h; decide

theorem pyExtend_error_ne (acc : List JVal) (d : JVal) (m : String)
    (h : pyExtend acc d = .error m) : m ≠ "" := by
  cases d <;> simp [pyExtend] at h <;> (subst h; decide)

theorem arjunLoop_typeErr_ne (lines : List RawLine) :
    ∀ acc m, arjunJsonLoop lines acc = .typeErr m → m ≠ "" := by
  induction lines with
  | nil => intro acc m h; cases h
  | cons l ls ih =>
    intro acc m h
    rw [arjunJsonLoop] at h
    by_cases hb : (pyStrip l.raw == "") = true
    · rw [if_pos hb] at h
      exact ih _ _ h
    · rw [if_neg hb] at h
      cases hd : l.decoded with
      | none => simp only [hd] at h; simp at h
      | some d =>
        simp only [hd] at h
        cases hc : pyContainsParams d with
        | error m2 =>
          simp only [hc] at h
          cases h
          exact pyContainsParams_error_ne d _ hc
        | ok b =>
          simp only [hc] at h
          cases b with
          | true =>
            cases hi : pyIndexParams d with
            | error m2 =>
              simp only [hi] at h
              cases h
              exact pyIndexParams_error_ne d _ hi
            | ok v =>
              simp only [hi] at h
              cases hex : pyExtend acc v with
              | error m2 =>
                simp only [hex] at h
                cases h
                exact pyExtend_error_ne acc v _ hex
              | ok acc2 =>
                simp only [hex] at h
                exact ih _ _ h
          | false =>
            cases d with
            | arr xs => exact ih _ _ h
            | str s => exact ih _ _ h
            | num n => exact ih _ _ h
            | boolean b2 => exact ih _ _ h
            | null => exact ih _ _ h
            | obj fs => exact ih _ _ h

theorem arjunParse_error_ne (fmt : String) (lines : List RawLine) (m : String)
    (h : arjunParseParams fmt lines = .error m) : m ≠ "" := by
  rw [arjunParseParams] at h
  by_cases hf : (fmt == "json") = true
  · rw [if_pos hf] at h
    cases hl : arjunJsonLoop lines [] with
    | ok ps => simp only [hl] at h; simp at h
    | decodeFailed ps2 => simp only [hl] at h; simp at h
    | typeErr m2 =>
      simp only [hl] at h
      cases h
      exact arjunLoop_typeErr_ne lines [] _ hl
  · rw [if_neg hf] at h
    cases h

theorem attrGetMsg_ne (d : JVal) : attrGetMsg d ≠ "" := by
  cases d <;> simp [attrGetMsg]

theorem gospiderLoop_error_ne (lines : List RawLine) :
    ∀ acc m, gospiderJsonLoop lines acc = .error m → m ≠ "" := by
  induction lines with
  | nil => intro acc m h; cases h
  | cons l ls ih =>
    intro acc m h
    rw [gospiderJsonLoop] at h
    by_cases hb : (pyStrip l.raw == "") = true
    · rw [if_pos hb] at h
      exact ih _ _ h
    · rw [if_neg hb] at h
      cases hd : l.decoded with
      | none => simp only [hd] at h; exact ih _ _ h
      | some d =>
        simp only [hd] at h
        cases d with
        | obj fs => exact ih _ _ h
        | str s => cases h; exact attrGetMsg_ne (.str s)
        | num n => cases h; exact attrGetMsg_ne (.num n)
        | boolean b => cases h; exact attrGetMsg_ne (.boolean b)
        | null => cases h; exact attrGetMsg_ne .null
        | arr xs => cases h; exact attrGetMsg_ne (.arr xs)

/-- Shape of a successful gospider_wrapper envelope. -/
theorem gospider_success_shape (g : GospiderArgs) (ex : ExecOutcome)
    (h : (gospider_wrapper g ex).success = true) :
    ∃ us fs ss, gospider_wrapper g ex =
      { success := true, target := some g.target, urls := some us, forms := some fs,
        secrets := some ss, stats := some ⟨us.length, fs.length, ss.length⟩ } := by
  cases ex with
  | launchFailure e s => simp [gospider_wrapper] at h
  | completed rc lines st =>
    rw [gospider_wrapper] at h ⊢
    by_cases hrc : (rc == 0) = true
    · rw [if_pos hrc] at h ⊢
      by_cases hf : (g.output_format == "json") = true
      · rw [if_pos hf] at h ⊢
        cases hl : gospiderJsonLoop lines ⟨[], [], []⟩ with
        | ok fnd =>
          simp only [hl] at h ⊢
          exact ⟨fnd.urls, fnd.forms, fnd.secrets, rfl⟩
        | error m => simp only [hl] at h; simp at h
      · rw [if_neg hf] at h ⊢
        exact ⟨gospiderTextParse lines, [], [], rfl⟩
    · rw [if_neg hrc] at h
      simp at h

theorem keysOf_append (d e : List (String × BulkEntry)) :
    keysOf (d ++ e) = keysOf d ++ keysOf e := by
  simp [keysOf]

theorem dictInsert_fresh (d : List (String × BulkEntry)) (k : String) (v : BulkEntry)
    (h : ¬ k ∈ keysOf d) : dictInsert d k v = d ++ [(k, v)] := by
  rw [dictInsert, if_neg]
  intro hc
  exact h (by simpa using hc)

theorem bulkGo_results (scan : Nat → String → ArjunResult) :
    ∀ (us : List String) (i : Nat) (acc : List (String × BulkEntry)) (s f : Nat),
      (∀ u ∈ us, ¬ u ∈ keysOf acc) → us.Nodup →
      (bulkGo scan us i acc s f).1 = acc ++ bulkEnum scan i us := by
  intro us
  induction us with
  | nil => intro i acc s f _ _; simp [bulkGo, bulkEnum]
  | cons u us ih =>
    intro i acc s f hfresh hnd
    have hu : ¬ u ∈ keysOf acc := hfresh u (by simp)
    have hins := dictInsert_fresh acc u (bulkEntryOf (scan i u)) hu
    have hfresh2 : ∀ w ∈ us, ¬ w ∈ keysOf (acc ++ [(u, bulkEntryOf (scan i u))]) := by
      intro w hw
      rw [keysOf_append]
      intro hmem
      rcases List.mem_append.mp hmem with hmem1 | hmem2
      · exact hfresh w (by simp [hw]) hmem1
      · have hwx : w = u := by simpa [keysOf] using hmem2
        exact (List.nodup_cons.mp hnd).1 (hwx ▸ hw)
    rw [bulkGo]
    by_cases hs : (scan i u).success = true
    · rw [if_pos hs, hins, ih (i + 1) _ (s + 1) f hfresh2 (List.Nodup.of_cons hnd)]
      simp [bulkEnum]
    · rw [if_neg hs, hins, ih (i + 1) _ s (f + 1) hfresh2 (List.Nodup.of_cons hnd)]
      simp [bulkEnum]

theorem bulkGo_counts (scan : Nat → String → ArjunResult) :
    ∀ (us : List String) (i : Nat) (acc : List (String × BulkEntry)) (s f : Nat),
      (bulkGo scan us i acc s f).2.1 + (bulkGo scan us i acc s f).2.2 = s + f + us.length := by
  intro us
  induction us with
  | nil => intro i acc s f; simp [bulkGo]
  | cons u us ih =>
    intro i acc s f
    rw [bulkGo]
    by_cases hs : (scan i u).success = true
    · rw [if_pos hs, ih]
      simp only [List.length_cons]
      omega
    · rw [if_neg hs, ih]
      simp only [List.length_cons]
      omega

theorem bulkEnum_keys (scan : Nat → String → ArjunResult) :
    ∀ (us : List String) (i : Nat), keysOf (bulkEnum scan i us) = us := by
  intro us
  induction us with
  | nil => intro i; rfl
  | cons u us ih =>
    intro i
    show u :: keysOf (bulkEnum scan (i + 1) us) = u :: us
    rw [ih]

theorem bulkEnum_lookup (scan : Nat → String → ArjunResult) :
    ∀ (us : List String) (i j : Nat) (hj : j < us.length), us.Nodup →
      (bulkEnum scan i us).lookup (us.get ⟨j, hj⟩) =
        some (bulkEntryOf (scan (i + j) (us.get ⟨j, hj⟩))) := by
  intro us
  induction us with
  | nil => intro i j hj; cases hj
  | cons u us ih =>
    intro i j hj hnd
    cases j with
    | zero =>
      show (bulkEnum scan i (u :: us)).lookup u = some (bulkEntryOf (scan (i + 0) u))
      rw [bulkEnum]
      simp [List.lookup]
    | succ j =>
      have hji : j < us.length := Nat.lt_of_succ_lt_succ hj
      have hget : (u :: us).get ⟨j + 1, hj⟩ = us.get ⟨j, hji⟩ := rfl
      rw [hget, bulkEnum, List.lookup]
      have hne : (us.get ⟨j, hji⟩ == u) = false := by
        have hmem : us.get ⟨j, hji⟩ ∈ us := List.get_mem us j hji
        have hnin : u ∉ us := (List.nodup_cons.mp hnd).1
        rw [beq_eq_false_iff_ne]
        intro he
        exact hnin (he ▸ hmem)
      rw [hne]
      have harith : i + 1 + j = i + (j + 1) := by omega
      rw [ih (i + 1) j hji (List.Nodup.of_cons hnd), harith]

theorem gospiderLoop_skip_malformed (lines : List RawLine) :
    ∀ acc, gospiderJsonLoop (lines.filter (fun l => l.decoded.isSome)) acc =
      gospiderJsonLoop lines acc := by
  induction lines with
  | nil => intro acc; rfl
  | cons l ls ih =>
    intro acc
    cases hd : l.decoded with
    | none =>
      have hf : (fun l : RawLine => l.decoded.isSome) l = false := by simp [hd]
      rw [List.filter_cons]
      simp only [hf]
      rw [if_neg Bool.false_ne_true, ih]
      rw [gospiderJsonLoop]
      by_cases hb : (pyStrip l.raw == "") = true
      · rw [if_pos hb]
      · rw [if_neg hb]
        simp only [hd]
    | some d =>
      have hf : (fun l : RawLine => l.decoded.isSome) l = true := by simp [hd]
      rw [List.filter_cons]
      simp only [hf]
      rw [if_pos (by trivial), gospiderJsonLoop, gospiderJsonLoop]
      by_cases hb : (pyStrip l.raw == "") = true
      · rw [if_pos hb, if_pos hb]
        exact ih acc
      · rw [if_neg hb, if_neg hb]
        simp only [hd]
        cases d with
        | obj fs => exact ih _
        | str s => rfl
        | num n => rfl
        | boolean b => rfl
        | null => rfl
        | arr xs => rfl

/-- If the structured loop consumes a prefix successfully, running it on
    the prefix followed by more lines continues from the accumulated
    parameters. -/
theorem arjunLoop_append (pre rest : List RawLine) :
    ∀ acc acc2, arjunJsonLoop pre acc = .ok acc2 →
      arjunJsonLoop (pre ++ rest) acc = arjunJsonLoop rest acc2 := by
  induction pre with
  | nil =>
    intro acc acc2 h
    cases h
    rfl
  | cons l ls ih =>
    intro acc acc2 h
    rw [arjunJsonLoop] at h
    rw [List.cons_append, arjunJsonLoop]
    by_cases hb : (pyStrip l.raw == "") = true
    · rw [if_pos hb] at h ⊢
      exact ih acc acc2 h
    · rw [if_neg hb] at h ⊢
      cases hd : l.decoded with
      | none =>
        simp only [hd] at h
        cases h
      | some d =>
        simp only [hd] at h ⊢
        cases hc : pyContainsParams d with
        | error m =>
          simp only [hc] at h
          cases h
        | ok b =>
          simp only [hc] at h ⊢
          cases b with
          | true =>
            cases hi : pyIndexParams d with
            | error m =>
              simp only [hi] at h
              cases h
            | ok v =>
              simp only [hi] at h ⊢
              cases hex : pyExtend acc v with
              | error m =>
                simp only [hex] at h
                cases h
              | ok acc3 =>
                simp only [hex] at h ⊢
                exact ih _ _ h
          | false =>
            cases d with
            | arr xs => exact ih _ _ h
            | str s => exact ih _ _ h
            | num n => exact ih _ _ h
            | boolean b2 => exact ih _ _ h
            | null => exact ih _ _ h
            | obj fs => exact ih _ _ h

/-! ## Claim theorems -/

/-- C1: the claim says every public operation returns a result envelope and
    never raises.  The code violates it: on a crawl whose structured output
    contains a url record without an output field, gospider_crawl_with_filter
    with an extension filter raises AttributeError to its caller instead of
    returning an envelope. -/
theorem C1_filter_raises_attribute_error :
    gospider_crawl_with_filter { target := "http://t" } { extensions := some ["php"] }
      (.completed 0 [⟨"\x7b\"type\": \"url\"\x7d", some (.obj [("type", .str "url")])⟩] "") =
    .error "NoneType object has no attribute endswith" := rfl

/-- C2 counterexample: a stdout with one well-formed record (one parameter
    "a") followed by one malformed line makes arjun_wrapper append the
    plain-text reparse of the whole stdout to the parameters already
    accumulated: it returns three findings ("a" plus both raw lines as
    text), not exactly the one finding of the well-formed record. -/
theorem C2_counterexample_arjun_fallback :
    arjun_wrapper { url := "http://x" }
      (.completed 0
        [⟨"\x7b\"parameters\": [\"a\"]\x7d", some (.obj [("parameters", .arr [.str "a"])])⟩,
         ⟨"notjson", none⟩] "") =
      { success := true, target := some "http://x", method := some "GET",
        parameters := some [.str "a", .str "\x7b\"parameters\": [\"a\"]\x7d", .str "notjson"],
        count := some 3 } ∧
    ¬ (arjun_wrapper { url := "http://x" }
        (.completed 0
          [⟨"\x7b\"parameters\": [\"a\"]\x7d", some (.obj [("parameters", .arr [.str "a"])])⟩,
           ⟨"notjson", none⟩] "")).count = some 1 := by
  refine ⟨rfl, ?_⟩
  intro h
  have h0 : (arjun_wrapper { url := "http://x" }
      (.completed 0
        [⟨"\x7b\"parameters\": [\"a\"]\x7d", some (.obj [("parameters", .arr [.str "a"])])⟩,
         ⟨"notjson", none⟩] "")).count = some 3 := rfl
  rw [h0] at h
  simp at h

/-- C2 amended: gospider's structured parser skips each non-decodable line
    individually (its result equals the result on the decodable lines
    alone); arjun's structured parser instead stops record parsing at the
    first non-decodable nonblank line and appends the plain-text parse of
    the entire stdout to the parameters accumulated up to that line, so
    the result is not exactly the findings of the well-formed records. -/
theorem C2_amended_parsers :
    (∀ lines : List RawLine,
       gospiderJsonLoop (lines.filter (fun l => l.decoded.isSome)) ⟨[], [], []⟩ =
         gospiderJsonLoop lines ⟨[], [], []⟩) ∧
    (∀ (pre post : List RawLine) (ps : List JVal) (l : RawLine),
       arjunJsonLoop pre [] = .ok ps →
       (pyStrip l.raw == "") = false → l.decoded = none →
       arjunParseParams "json" (pre ++ l :: post) =
         .ok (ps ++ arjunTextParse (pre ++ l :: post))) := by
  constructor
  · intro lines
    exact gospiderLoop_skip_malformed lines ⟨[], [], []⟩
  · intro pre post ps l hpre hblank hdec
    have hj : (("json" : String) == "json") = true := rfl
    have hloop : arjunJsonLoop (pre ++ l :: post) [] = .decodeFailed ps := by
      rw [arjunLoop_append pre (l :: post) [] ps hpre, arjunJsonLoop,
        if_neg (by simp [hblank])]
      simp only [hdec]
    rw [arjunParseParams, if_pos hj, hloop]

/-- C2 witness: the amended statement instantiated on concrete stdouts:
    a decodable url record plus a garbage line for gospider, and a
    well-formed parameters record followed by a malformed line for arjun. -/
theorem C2_amended_parsers_witness :
    gospiderJsonLoop
        ([⟨"\x7b\"type\": \"url\", \"output\": \"/a\"\x7d",
            some (.obj [("type", .str "url"), ("output", .str "/a")])⟩,
          ⟨"garbage", none⟩].filter (fun l => l.decoded.isSome)) ⟨[], [], []⟩ =
      gospiderJsonLoop
        [⟨"\x7b\"type\": \"url\", \"output\": \"/a\"\x7d",
            some (.obj [("type", .str "url"), ("output", .str "/a")])⟩,
          ⟨"garbage", none⟩] ⟨[], [], []⟩ ∧
    arjunParseParams "json"
        ([⟨"\x7b\"parameters\": [\"b\"]\x7d", some (.obj [("parameters", .arr [.str "b"])])⟩] ++
          ⟨"oops", none⟩ :: []) =
      .ok ([JVal.str "b"] ++ arjunTextParse
        ([⟨"\x7b\"parameters\": [\"b\"]\x7d", some (.obj [("parameters", .arr [.str "b"])])⟩] ++
          ⟨"oops", none⟩ :: [])) :=
  ⟨C2_amended_parsers.1 _,
   C2_amended_parsers.2
     [⟨"\x7b\"parameters\": [\"b\"]\x7d", some (.obj [("parameters", .arr [.str "b"])])⟩]
     [] [JVal.str "b"] ⟨"oops", none⟩ rfl rfl rfl⟩

/-- C3 counterexample: with output_format = "xml" neither wrapper fails
    validation: arjun builds the text-mode token list and, given a
    successful execution, returns a success envelope; gospider just omits
    the json flag. -/
theorem C3_counterexample_no_validation :
    arjunCmd { url := "http://x", output_format := "xml" } =
      ["arjun", "-u", "http://x", "-m", "GET", "-t", "10", "--threads", "25", "-oT", "-"] ∧
    arjun_wrapper { url := "http://x", output_format := "xml" } (.completed 0 [] "") =
      { success := true, target := some "http://x", method := some "GET",
        parameters := some [], count := some 0 } ∧
    gospiderCmd { target := "http://t", output_format := "xml" } =
      ["gospider", "-s", "http://t", "-d", "3", "-c", "10", "-t", "10"] ∧
    gospider_wrapper { target := "http://t", output_format := "xml" } (.completed 0 [] "") =
      { success := true, target := some "http://t", urls := some [], forms := some [],
        secrets := some [], stats := some ⟨0, 0, 0⟩ } :=
  ⟨rfl, rfl, rfl, rfl⟩

/-- C3 amended: an output_format other than "json" is never rejected;
    both wrappers behave exactly as with "txt" (arjun emits -oT, gospider
    omits the json flag, output is parsed as plain text) and the
    subprocess outcome is consumed as usual. -/
theorem C3_amended_silent_fallback (a : ArjunArgs) (g : GospiderArgs) (ex : ExecOutcome)
    (ha : ¬ a.output_format = "json") (hg : ¬ g.output_format = "json") :
    arjunCmd a = arjunCmd { a with output_format := "txt" } ∧
    arjun_wrapper a ex = arjun_wrapper { a with output_format := "txt" } ex ∧
    gospiderCmd g = gospiderCmd { g with output_format := "txt" } ∧
    gospider_wrapper g ex = gospider_wrapper { g with output_format := "txt" } ex := by
  have ha2 : (a.output_format == "json") = false := by simp [ha]
  have hg2 : (g.output_format == "json") = false := by simp [hg]
  have hcmdA : arjunCmd a = arjunCmd { a with output_format := "txt" } := by
    simp [arjunCmd, ha2]
  have hcmdG : gospiderCmd g = gospiderCmd { g with output_format := "txt" } := by
    simp [gospiderCmd, hg2]
  have hparse : ∀ lines, arjunParseParams a.output_format lines =
      arjunParseParams "txt" lines := by
    intro lines
    rw [arjunParseParams, arjunParseParams, ha2]
    rfl
  have hwrapA : arjun_wrapper a ex = arjun_wrapper { a with output_format := "txt" } ex := by
    cases ex with
    | launchFailure e s => rfl
    | completed rc lines st =>
      rw [arjun_wrapper, arjun_wrapper]
      by_cases hrc : (rc == 0) = true
      · rw [if_pos hrc, if_pos hrc, hparse lines]
      · rw [if_neg hrc, if_neg hrc, hcmdA]
  have hwrapG : gospider_wrapper g ex = gospider_wrapper { g with output_format := "txt" } ex := by
    cases ex with
    | launchFailure e s => rfl
    | completed rc lines st =>
      rw [gospider_wrapper, gospider_wrapper]
      by_cases hrc : (rc == 0) = true
      · rw [if_pos hrc, if_pos hrc, hg2]
        rfl
      · rw [if_neg hrc, if_neg hrc, hcmdG]
  exact ⟨hcmdA, hwrapA, hcmdG, hwrapG⟩

/-- C3 witness: the amended statement at output_format = "xml". -/
theorem C3_amended_silent_fallback_witness :
    arjunCmd { url := "http://x", output_format := "xml" } =
      arjunCmd { { url := "http://x", output_format := "xml" : ArjunArgs } with
                 output_format := "txt" } ∧
    arjun_wrapper { url := "http://x", output_format := "xml" } (.completed 0 [] "") =
      arjun_wrapper { { url := "http://x", output_format := "xml" : ArjunArgs } with
                      output_format := "txt" } (.completed 0 [] "") ∧
    gospiderCmd { target := "http://t", output_format := "xml" } =
      gospiderCmd { { target := "http://t", output_format := "xml" : GospiderArgs } with
                    output_format := "txt" } ∧
    gospider_wrapper { target := "http://t", output_format := "xml" } (.completed 0 [] "") =
      gospider_wrapper { { target := "http://t", output_format := "xml" : GospiderArgs } with
                         output_format := "txt" } (.completed 0 [] "") :=
  C3_amended_silent_fallback
    { url := "http://x", output_format := "xml" }
    { target := "http://t", output_format := "xml" }
    (.completed 0 [] "") (by decide) (by decide)

/-- C4: the claim says filter_length excludes URL findings by response
    length.  The code violates it: filter_length is accepted and then
    never consulted; supplying it changes nothing, and on a concrete crawl
    with filter_length given no URL finding is excluded. -/
theorem C4_filter_length_ignored :
    (∀ (g : GospiderArgs) (f : FilterArgs) (ex : ExecOutcome),
       gospider_crawl_with_filter g f ex =
         gospider_crawl_with_filter g { f with filter_length := none } ex) ∧
    gospider_crawl_with_filter { target := "http://t" } { filter_length := some 5 }
        (.completed 0
          [⟨"\x7b\"type\": \"url\", \"output\": \"/a.js\"\x7d",
             some (.obj [("type", .str "url"), ("output", .str "/a.js")])⟩] "") =
      .ok { success := true, target := some "http://t",
            urls := some [⟨some (.str "/a.js"), none, none, none⟩],
            forms := some [], secrets := some [], stats := some ⟨1, 0, 0⟩,
            filtered := some true } :=
  ⟨fun g f ex => rfl, rfl⟩

/-- C7: on findings /a.js, /b.php, /c.png the extension-include filter
    ["php"] returns exactly the /b.php finding with total_urls 1. -/
theorem C7_extension_filter_scenario :
    gospider_crawl_with_filter { target := "http://t" } { extensions := some ["php"] }
      (.completed 0
        [⟨"\x7b\"type\": \"url\", \"output\": \"/a.js\"\x7d",
           some (.obj [("type", .str "url"), ("output", .str "/a.js")])⟩,
         ⟨"\x7b\"type\": \"url\", \"output\": \"/b.php\"\x7d",
           some (.obj [("type", .str "url"), ("output", .str "/b.php")])⟩,
         ⟨"\x7b\"type\": \"url\", \"output\": \"/c.png\"\x7d",
           some (.obj [("type", .str "url"), ("output", .str "/c.png")])⟩] "") =
    .ok { success := true, target := some "http://t",
          urls := some [⟨some (.str "/b.php"), none, none, none⟩],
          forms := some [], secrets := some [], stats := some ⟨1, 0, 0⟩,
          filtered := some true } := rfl

/-- C5: envelope invariant of both wrappers.  success = false implies the
    envelope carries no finding collections (so they are empty) and a
    non-empty error string; success = true implies the stated counts equal
    the lengths of the finding collections. -/
theorem C5_envelope_invariant (a : ArjunArgs) (g : GospiderArgs) (ex ex2 : ExecOutcome) :
    ((arjun_wrapper a ex).success = false →
       (arjun_wrapper a ex).parameters = none ∧
       (arjun_wrapper a ex).parameters.getD [] = [] ∧
       ∃ m, (arjun_wrapper a ex).error = some m ∧ m ≠ "") ∧
    ((arjun_wrapper a ex).success = true →
       ∃ ps, (arjun_wrapper a ex).parameters = some ps ∧
         (arjun_wrapper a ex).count = some ps.length) ∧
    ((gospider_wrapper g ex2).success = false →
       (gospider_wrapper g ex2).urls = none ∧ (gospider_wrapper g ex2).forms = none ∧
       (gospider_wrapper g ex2).secrets = none ∧
       ∃ m, (gospider_wrapper g ex2).error = some m ∧ m ≠ "") ∧
    ((gospider_wrapper g ex2).success = true →
       ∃ us fs ss, (gospider_wrapper g ex2).urls = some us ∧
         (gospider_wrapper g ex2).forms = some fs ∧
         (gospider_wrapper g ex2).secrets = some ss ∧
         (gospider_wrapper g ex2).stats = some ⟨us.length, fs.length, ss.length⟩) := by
  refine ⟨?_, ?_, ?_, ?_⟩
  · intro hf
    cases ex with
    | launchFailure e s =>
      exact ⟨rfl, rfl, oserrorStr e s, rfl, oserrorStr_ne e s⟩
    | completed rc lines st =>
      rw [arjun_wrapper] at hf ⊢
      by_cases hrc : (rc == 0) = true
      · rw [if_pos hrc] at hf ⊢
        cases hp : arjunParseParams a.output_format lines with
        | ok ps => simp [hp] at hf
        | error m =>
          refine ⟨?_, ?_, m, ?_, arjunParse_error_ne _ _ _ hp⟩ <;> simp [hp]
      · rw [if_neg hrc] at hf ⊢
        exact ⟨rfl, rfl, _, rfl, cpeStr_ne _ _⟩
  · intro ht
    cases ex with
    | launchFailure e s => simp [arjun_wrapper] at ht
    | completed rc lines st =>
      rw [arjun_wrapper] at ht ⊢
      by_cases hrc : (rc == 0) = true
      · rw [if_pos hrc] at ht ⊢
        cases hp : arjunParseParams a.output_format lines with
        | ok ps =>
          simp only [hp] at ht ⊢
          exact ⟨ps, rfl, rfl⟩
        | error m => simp [hp] at ht
      · rw [if_neg hrc] at ht
        simp at ht
  · intro hf
    cases ex2 with
    | launchFailure e s =>
      exact ⟨rfl, rfl, rfl, oserrorStr e s, rfl, oserrorStr_ne e s⟩
    | completed rc lines st =>
      rw [gospider_wrapper] at hf ⊢
      by_cases hrc : (rc == 0) = true
      · rw [if_pos hrc] at hf ⊢
        by_cases hjf : (g.output_format == "json") = true
        · rw [if_pos hjf] at hf ⊢
          cases hl : gospiderJsonLoop lines ⟨[], [], []⟩ with
          | ok fnd => simp [hl] at hf
          | error m =>
            refine ⟨?_, ?_, ?_, m, ?_, gospiderLoop_error_ne _ _ _ hl⟩ <;> simp [hl]
        · rw [if_neg hjf] at hf
          simp at hf
      · rw [if_neg hrc] at hf ⊢
        exact ⟨rfl, rfl, rfl, _, rfl, cpeStr_ne _ _⟩
  · intro ht
    rcases gospider_success_shape g ex2 ht with ⟨us, fs, ss, hW⟩
    rw [hW]
    exact ⟨us, fs, ss, rfl, rfl, rfl, rfl⟩

/-- C5 witness: the invariant instantiated on a failed arjun launch and a
    successful empty gospider crawl. -/
theorem C5_envelope_invariant_witness :
    ((arjun_wrapper { url := "http://x" } (.launchFailure 2 "No such file")).parameters = none ∧
     (arjun_wrapper { url := "http://x" } (.launchFailure 2 "No such file")).parameters.getD [] = [] ∧
     ∃ m, (arjun_wrapper { url := "http://x" } (.launchFailure 2 "No such file")).error = some m ∧
       m ≠ "") ∧
    (∃ us fs ss,
      (gospider_wrapper { target := "http://t" } (.completed 0 [] "")).urls = some us ∧
      (gospider_wrapper { target := "http://t" } (.completed 0 [] "")).forms = some fs ∧
      (gospider_wrapper { target := "http://t" } (.completed 0 [] "")).secrets = some ss ∧
      (gospider_wrapper { target := "http://t" } (.completed 0 [] "")).stats =
        some ⟨us.length, fs.length, ss.length⟩) :=
  ⟨(C5_envelope_invariant { url := "http://x" } { target := "http://t" }
      (.launchFailure 2 "No such file") (.completed 0 [] "")).1 rfl,
   (C5_envelope_invariant { url := "http://x" } { target := "http://t" }
      (.launchFailure 2 "No such file") (.completed 0 [] "")).2.2.2 rfl⟩

/-- C6 counterexample: with the duplicate target list [a, a] where the
    first scan fails and the second succeeds, the batch reports
    failed_scans = 1 yet the single results entry for the failed target
    carries no error (the later success overwrote it), so the claim fails
    as stated. -/
theorem C6_counterexample_duplicate_targets :
    arjun_bulk_scan ["http://a", "http://a"] "GET" none 25 false mixedExecs =
      { success := true, method := "GET", total_urls := 2, successful_scans := 1,
        failed_scans := 1,
        results := [("http://a", { parameters := [], count := 0, error := none })] } := rfl

/-- C6 amended: for pairwise-distinct target lists the claim holds: outer
    success, total_urls = input length, successful + failed = total, keys
    of results are exactly the input targets in order, the entry for the
    j-th target is built from the j-th arjun_wrapper envelope, and that
    entry is error-free with the discovered parameters on success, or
    carries an error with empty parameters and count 0 on failure. -/
theorem C6_amended_bulk (urls : List String) (method : String) (wordlist : Option String)
    (threads : Int) (stable : Bool) (execs : Nat → ExecOutcome) (hnd : urls.Nodup) :
    (arjun_bulk_scan urls method wordlist threads stable execs).success = true ∧
    (arjun_bulk_scan urls method wordlist threads stable execs).total_urls = urls.length ∧
    (arjun_bulk_scan urls method wordlist threads stable execs).successful_scans +
      (arjun_bulk_scan urls method wordlist threads stable execs).failed_scans = urls.length ∧
    keysOf (arjun_bulk_scan urls method wordlist threads stable execs).results = urls ∧
    (∀ (j : Nat) (hj : j < urls.length),
      (arjun_bulk_scan urls method wordlist threads stable execs).results.lookup
          (urls.get ⟨j, hj⟩) =
        some (bulkEntryOf (arjun_wrapper
          (bulkArgs method wordlist threads stable (urls.get ⟨j, hj⟩)) (execs j)))) ∧
    (∀ r : ArjunResult,
      (r.success = true →
        bulkEntryOf r = ⟨r.parameters.getD [], r.count.getD 0, none⟩) ∧
      (r.success = false →
        bulkEntryOf r = ⟨[], 0, some (r.error.getD "")⟩)) := by
  have hres := bulkGo_results
    (fun i u => arjun_wrapper (bulkArgs method wordlist threads stable u) (execs i))
    urls 0 [] 0 0 (by intro u hu hmem; simp [keysOf] at hmem) hnd
  have hcnt := bulkGo_counts
    (fun i u => arjun_wrapper (bulkArgs method wordlist threads stable u) (execs i))
    urls 0 [] 0 0
  refine ⟨rfl, rfl, ?_, ?_, ?_, ?_⟩
  · simpa [arjun_bulk_scan] using hcnt
  · show keysOf (bulkGo _ urls 0 [] 0 0).1 = urls
    rw [hres]
    simpa using bulkEnum_keys _ urls 0
  · intro j hj
    show (bulkGo _ urls 0 [] 0 0).1.lookup _ = _
    rw [hres]
    have h2 := bulkEnum_lookup
      (fun i u => arjun_wrapper (bulkArgs method wordlist threads stable u) (execs i))
      urls 0 j hj hnd
    simpa using h2
  · intro r
    constructor
    · intro hs
      rw [bulkEntryOf, if_pos hs]
    · intro hf
      rw [bulkEntryOf, if_neg (by simp [hf])]

/-- C6 witness: the amended statement on two distinct targets where the
    first scan fails and the second succeeds. -/
theorem C6_amended_bulk_witness :
    (arjun_bulk_scan ["http://a", "http://b"] "GET" none 25 false mixedExecs).successful_scans +
      (arjun_bulk_scan ["http://a", "http://b"] "GET" none 25 false mixedExecs).failed_scans = 2 ∧
    keysOf (arjun_bulk_scan ["http://a", "http://b"] "GET" none 25 false mixedExecs).results =
      ["http://a", "http://b"] ∧
    (arjun_bulk_scan ["http://a", "http://b"] "GET" none 25 false mixedExecs).results.lookup
        "http://a" =
      some (bulkEntryOf (arjun_wrapper (bulkArgs "GET" none 25 false "http://a")
        (mixedExecs 0))) :=
  have h := C6_amended_bulk ["http://a", "http://b"] "GET" none 25 false mixedExecs (by decide)
  ⟨h.2.2.1, h.2.2.2.1, h.2.2.2.2.1 0 (by decide)⟩

/-- C8: a non-zero exit yields a failure envelope whose stderr field is
    the captured stderr, or "Command execution failed" when that is empty,
    and the result does not depend on the captured stdout (the parser is
    never applied to it). -/
theorem C8_nonzero_exit (a : ArjunArgs) (g : GospiderArgs) (rc : Int)
    (lines lines2 : List RawLine) (stderrText : String) (h : ¬ rc = 0) :
    arjun_wrapper a (.completed rc lines stderrText) =
      { success := false, error := some (cpeStr (arjunCmd a) rc),
        stderr := some (if stderrText == "" then "Command execution failed" else stderrText) } ∧
    arjun_wrapper a (.completed rc lines stderrText) =
      arjun_wrapper a (.completed rc lines2 stderrText) ∧
    gospider_wrapper g (.completed rc lines stderrText) =
      { success := false, error := some (cpeStr (gospiderCmd g) rc),
        stderr := some (if stderrText == "" then "Command execution failed" else stderrText) } ∧
    gospider_wrapper g (.completed rc lines stderrText) =
      gospider_wrapper g (.completed rc lines2 stderrText) := by
  have hb : ¬ ((rc == 0) = true) := by simp [h]
  refine ⟨?_, ?_, ?_, ?_⟩
  · rw [arjun_wrapper, if_neg hb]
  · rw [arjun_wrapper, arjun_wrapper, if_neg hb, if_neg hb]
  · rw [gospider_wrapper, if_neg hb]
  · rw [gospider_wrapper, gospider_wrapper, if_neg hb, if_neg hb]

/-- C8 witness: a concrete exit status 1 with empty stderr, and stdouts
    that differ without affecting the envelope. -/
theorem C8_nonzero_exit_witness :
    arjun_wrapper { url := "http://x" } (.completed 1 [] "") =
      { success := false, error := some (cpeStr (arjunCmd { url := "http://x" }) 1),
        stderr := some (if ("" : String) == "" then "Command execution failed" else "") } ∧
    arjun_wrapper { url := "http://x" } (.completed 1 [] "") =
      arjun_wrapper { url := "http://x" } (.completed 1 [⟨"junk", none⟩] "") ∧
    gospider_wrapper { target := "http://t" } (.completed 1 [] "") =
      { success := false, error := some (cpeStr (gospiderCmd { target := "http://t" }) 1),
        stderr := some (if ("" : String) == "" then "Command execution failed" else "") } ∧
    gospider_wrapper { target := "http://t" } (.completed 1 [] "") =
      gospider_wrapper { target := "http://t" } (.completed 1 [⟨"junk", none⟩] "") :=
  C8_nonzero_exit { url := "http://x" } { target := "http://t" } 1 [] [⟨"junk", none⟩] ""
    (by decide)

/-- Helper: arjun_wrapper never emits the custom-parameter keys. -/
theorem arjun_wrapper_no_custom (a : ArjunArgs) (ex : ExecOutcome) :
    (arjun_wrapper a ex).custom_parameters_tested = none ∧
    (arjun_wrapper a ex).custom_parameters_found = none ∧
    (arjun_wrapper a ex).custom_match_count = none := by
  cases ex with
  | launchFailure e s => exact ⟨rfl, rfl, rfl⟩
  | completed rc lines st =>
    rw [arjun_wrapper]
    by_cases hrc : (rc == 0) = true
    · rw [if_pos hrc]
      cases hp : arjunParseParams a.output_format lines with
      | ok ps => refine ⟨?_, ?_, ?_⟩ <;> simp [hp]
      | error m => refine ⟨?_, ?_, ?_⟩ <;> simp [hp]
    · rw [if_neg hrc]
      exact ⟨rfl, rfl, rfl⟩

/-- C9: a successful gospider_crawl_with_filter call leaves every field of
    the underlying gospider_wrapper envelope unchanged except urls,
    stats.total_urls, and the added filtered flag: target, success, forms,
    secrets, stats.total_forms, stats.total_secrets, error and stderr all
    match the base result. -/
theorem C9_filter_frame (g : GospiderArgs) (f : FilterArgs) (ex : ExecOutcome)
    (r : GospiderResult) (hok : gospider_crawl_with_filter g f ex = .ok r)
    (hs : r.success = true) :
    r.target = (gospider_wrapper g ex).target ∧
    r.success = (gospider_wrapper g ex).success ∧
    r.forms = (gospider_wrapper g ex).forms ∧
    r.secrets = (gospider_wrapper g ex).secrets ∧
    (∃ st bst, r.stats = some st ∧ (gospider_wrapper g ex).stats = some bst ∧
      st.total_forms = bst.total_forms ∧ st.total_secrets = bst.total_secrets) ∧
    r.error = (gospider_wrapper g ex).error ∧
    r.stderr = (gospider_wrapper g ex).stderr := by
  by_cases hbs : (gospider_wrapper g ex).success = true
  · rcases gospider_success_shape g ex hbs with ⟨us, fs, ss, hW⟩
    rw [gospider_crawl_with_filter] at hok
    simp [hW] at hok
    cases hap : applyFilters f us with
    | error m =>
      rw [hap] at hok
      cases hok
    | ok urls2 =>
      rw [hap] at hok
      have hr := Except.ok.inj hok
      subst hr
      rw [hW]
      exact ⟨rfl, rfl, rfl, rfl,
        ⟨⟨urls2.length, fs.length, ss.length⟩, ⟨us.length, fs.length, ss.length⟩,
          rfl, rfl, rfl, rfl⟩, rfl, rfl⟩
  · have hbs2 : (gospider_wrapper g ex).success = false := by
      revert hbs
      cases (gospider_wrapper g ex).success <;> simp
    rw [gospider_crawl_with_filter] at hok
    simp [hbs2] at hok
    rw [← hok, hbs2] at hs
    cases hs

/-- C9 witness: the frame property on the concrete single-finding crawl
    filtered with ["php"]. -/
theorem C9_filter_frame_witness :
    phpFilteredResult.target = (gospider_wrapper { target := "http://t" } phpCrawlExec).target ∧
    phpFilteredResult.success = (gospider_wrapper { target := "http://t" } phpCrawlExec).success ∧
    phpFilteredResult.forms = (gospider_wrapper { target := "http://t" } phpCrawlExec).forms ∧
    phpFilteredResult.secrets = (gospider_wrapper { target := "http://t" } phpCrawlExec).secrets ∧
    (∃ st bst, phpFilteredResult.stats = some st ∧
      (gospider_wrapper { target := "http://t" } phpCrawlExec).stats = some bst ∧
      st.total_forms = bst.total_forms ∧ st.total_secrets = bst.total_secrets) ∧
    phpFilteredResult.error = (gospider_wrapper { target := "http://t" } phpCrawlExec).error ∧
    phpFilteredResult.stderr = (gospider_wrapper { target := "http://t" } phpCrawlExec).stderr :=
  C9_filter_frame { target := "http://t" } { extensions := some ["php"] } phpCrawlExec
    phpFilteredResult rfl rfl

/-- C10: arjun_with_custom_payloads returns the base failure envelope
    unchanged on failure; adds no custom keys when custom_params is absent
    or empty; and otherwise reports tested = custom_params, found = the
    sublist of custom_params (in order, duplicates kept) present in the
    discovered parameters, and match count = length of found, leaving the
    discovered parameters unchanged. -/
theorem C10_custom_payloads (a : ArjunArgs) (cps : Option (List String)) (ex : ExecOutcome) :
    ((arjun_wrapper a ex).success = false →
       arjun_with_custom_payloads a cps ex = arjun_wrapper a ex) ∧
    (cps = none ∨ cps = some [] →
       arjun_with_custom_payloads a cps ex = arjun_wrapper a ex ∧
       (arjun_with_custom_payloads a cps ex).custom_parameters_tested = none ∧
       (arjun_with_custom_payloads a cps ex).custom_parameters_found = none ∧
       (arjun_with_custom_payloads a cps ex).custom_match_count = none) ∧
    (∀ ps, cps = some ps → ps ≠ [] → (arjun_wrapper a ex).success = true →
       (arjun_with_custom_payloads a cps ex).custom_parameters_tested = some ps ∧
       (arjun_with_custom_payloads a cps ex).custom_parameters_found =
         some (ps.filter (fun p =>
           ((arjun_wrapper a ex).parameters.getD []).any (fun v => jvalIsStr v p))) ∧
       (arjun_with_custom_payloads a cps ex).custom_match_count =
         some (ps.filter (fun p =>
           ((arjun_wrapper a ex).parameters.getD []).any (fun v => jvalIsStr v p))).length ∧
       (arjun_with_custom_payloads a cps ex).parameters = (arjun_wrapper a ex).parameters ∧
       (arjun_with_custom_payloads a cps ex).success = true) := by
  refine ⟨?_, ?_, ?_⟩
  · intro hf
    rw [arjun_with_custom_payloads]
    rw [if_neg (by simp [hf])]
  · intro hcp
    have heq : arjun_with_custom_payloads a cps ex = arjun_wrapper a ex := by
      have ht : optListTruthy cps = false := by
        rcases hcp with h1 | h1 <;> rw [h1] <;> rfl
      rw [arjun_with_custom_payloads]
      by_cases hsucc : (arjun_wrapper a ex).success = true
      · rw [if_pos hsucc, if_neg (by simp [ht])]
      · rw [if_neg hsucc]
    refine ⟨heq, ?_, ?_, ?_⟩ <;> rw [heq]
    · exact (arjun_wrapper_no_custom a ex).1
    · exact (arjun_wrapper_no_custom a ex).2.1
    · exact (arjun_wrapper_no_custom a ex).2.2
  · intro ps hcps hne hsucc
    subst hcps
    have htr : optListTruthy (some ps) = true := by
      cases ps with
      | nil => exact absurd rfl hne
      | cons p ps2 => rfl
    rw [arjun_with_custom_payloads, if_pos hsucc, if_pos htr]
    exact ⟨rfl, rfl, rfl, rfl, hsucc⟩

/-- C10 witness: a successful scan discovering parameters a and b, tested
    against custom parameters [b, x, b], and the pass-through of a failed
    scan. -/
theorem C10_custom_payloads_witness :
    (arjun_with_custom_payloads { url := "http://x" } (some ["b", "x", "b"])
        (.completed 0
          [⟨"\x7b\"parameters\": [\"a\", \"b\"]\x7d",
             some (.obj [("parameters", .arr [.str "a", .str "b"])])⟩] "")).custom_parameters_tested =
      some ["b", "x", "b"] ∧
    (arjun_with_custom_payloads { url := "http://x" } (some ["b", "x", "b"])
        (.completed 0
          [⟨"\x7b\"parameters\": [\"a\", \"b\"]\x7d",
             some (.obj [("parameters", .arr [.str "a", .str "b"])])⟩] "")).custom_parameters_found =
      some (["b", "x", "b"].filter (fun p =>
        ((arjun_wrapper { url := "http://x" }
            (.completed 0
              [⟨"\x7b\"parameters\": [\"a\", \"b\"]\x7d",
                 some (.obj [("parameters", .arr [.str "a", .str "b"])])⟩] "")).parameters.getD
          []).any (fun v => jvalIsStr v p))) ∧
    (arjun_with_custom_payloads { url := "http://x" } (some ["b", "x", "b"])
        (.completed 1 [] "boom")) =
      arjun_wrapper { url := "http://x" } (.completed 1 [] "boom") :=
  have hT := C10_custom_payloads { url := "http://x" } (some ["b", "x", "b"])
    (.completed 0
      [⟨"\x7b\"parameters\": [\"a\", \"b\"]\x7d",
         some (.obj [("parameters", .arr [.str "a", .str "b"])])⟩] "")
  have hF := C10_custom_payloads { url := "http://x" } (some ["b", "x", "b"])
    (.completed 1 [] "boom")
  ⟨(hT.2.2 ["b", "x", "b"] rfl (by decide) rfl).1,
   (hT.2.2 ["b", "x", "b"] rfl (by decide) rfl).2.1,
   hF.1 rfl⟩

end SecOps
